import Mathlib
/-!
Verification of the `ExcelClient` pipeline (src/excel_client.py).

The Python class reads one sheet of an Excel workbook into a pandas
DataFrame (`_to_df`), projects it onto the columns of the `FEATURES`
schema constant and drops rows with an empty `Name` cell (`_format_df`),
scans for missing values and coerces column dtypes (`_validate_data`),
and orchestrates the whole pipeline (`load_excel`).

The embedding models a pandas DataFrame as a column-name list together
with index-tagged rows of optional scalar cells (`none` is pandas NaN,
the missing marker).  The filesystem and `pd.read_excel` are modelled
abstractly: a path maps to a missing entry, a corrupt file, or a
workbook of named sheets.  Each method returns the updated object state
(the Python code mutates `self.dataframe`), the log events it emits and
either a value or the raised error.
-/
/-- Scalar dtypes of the schema (pandas dtype tags). The floating-point
payload in `Value` is abstracted to an integer representative: no claim
depends on float arithmetic, only on dtype tags. -/
inductive Dtype where
  | text
  | integer
  | floating
  | datetime
  | boolean
deriving DecidableEq, Repr
/-- A scalar value held by a cell of the DataFrame. -/
inductive Value where
  | str (s : String)
  | int (n : Int)
  | float (x : Int)
  | date (t : Int)
  | bool (b : Bool)
deriving DecidableEq, Repr
/-- The runtime dtype of a scalar value. -/
def Value.dtypeOf : Value → Dtype
  | .str _ => .text
  | .int _ => .integer
  | .float _ => .floating
  | .date _ => .datetime
  | .bool _ => .boolean
/-- String rendering of a scalar, used by `astype(str)` and for header
cells that are not text. -/
def Value.render : Value → String
  | .str s => s
  | .int n => toString n
  | .float x => toString x
  | .date t => toString t
  | .bool b => if b then "True" else "False"
/-- A cell of a DataFrame: `none` is pandas NaN, the missing marker. -/
abbrev Cell := Option Value
/-- A pandas DataFrame: column names plus rows, each row tagged with its
index label.  `pd.read_excel` and `reset_index(drop=True)` produce the
contiguous labels 0, 1, 2, ...; boolean-mask row filtering keeps the
labels of the surviving rows. -/
structure DataFrame where
  cols : List String
  rows : List (Nat × List Cell)
deriving DecidableEq, Repr
/-- The empty frame `pd.DataFrame()` assigned in `__init__`. -/
def DataFrame.empty : DataFrame := ⟨[], []⟩
/-- A sheet of a workbook: a grid of cells. -/
structure Sheet where
  grid : List (List Cell)
deriving DecidableEq, Repr
/-- What a path resolves to: nothing, an unreadable file, or a workbook
of named sheets. -/
inductive FileEntry where
  | missing
  | corrupt
  | workbook (sheets : List (String × Sheet))
deriving DecidableEq, Repr
/-- The filesystem seen by `pd.read_excel`. -/
abbrev FileSystem := String → FileEntry
/-- Exceptions raised inside pandas during `read_excel`, other than
`FileNotFoundError`: the workbook cannot be parsed, or the requested
worksheet does not exist. -/
inductive PandasExn where
  | corruptFile (path : String)
  | worksheetNotFound (sheet : String)
deriving DecidableEq, Repr
/-- Outcome of the raw `pd.read_excel` call before `_to_df` translates
exceptions. -/
inductive ReadExn where
  | fileNotFound
  | other (e : PandasExn)
deriving DecidableEq, Repr
/-- Column name that pandas gives position `pos` of the header row:
the cell rendered as text, or `Unnamed: pos` for a NaN header cell. -/
def headerName (pos : Nat) (c : Cell) : String :=
  match c with
  | some v => v.render
  | none => "Unnamed: " ++ toString pos
/-- Width of a grid: the length of its longest row (pandas pads shorter
rows with NaN to make the frame rectangular). -/
def gridWidth (g : List (List Cell)) : Nat :=
  g.foldr (fun r acc => max r.length acc) 0
/-- Pad a row with NaN cells up to width `w`. -/
def padRow (w : Nat) (r : List Cell) : List Cell :=
  r ++ List.replicate (w - r.length) none
/-- Parse a sheet into a DataFrame.  `headerRow = some k` uses row `k`
as the column names and the rows after it as data (pandas `header=k`);
`headerRow = none` is pandas `header=None`: positional integer column
names and every row kept as data. -/
def sheetToDf (s : Sheet) (headerRow : Option Nat) : DataFrame :=
  let w := gridWidth s.grid
  match headerRow with
  | some k =>
      let hdr := padRow w ((s.grid.drop k).headD [])
      let body := (s.grid.drop (k + 1)).map (padRow w)
      { cols := hdr.enum.map (fun p => headerName p.1 p.2)
        rows := body.enum }
  | none =>
      { cols := (List.range w).map toString
        rows := (s.grid.map (padRow w)).enum }
/-- The default of the `header` keyword of `pd.read_excel`, applied when
the call site omits it: row 0 is the header. -/
def pandasDefaultHeader : Option Nat := some 0
/-- The `pd.read_excel(path, sheet_name=sheet, header=headerRow)` call. -/
def readExcelCall (fs : FileSystem) (path sheet : String)
    (headerRow : Option Nat) : Except ReadExn DataFrame :=
  match fs path with
  | .missing => .error .fileNotFound
  | .corrupt => .error (.other (.corruptFile path))
  | .workbook sheets =>
      match sheets.lookup sheet with
      | none => .error (.other (.worksheetNotFound sheet))
      | some s => .ok (sheetToDf s headerRow)
/-- Errors raised out of the `ExcelClient` methods.  `fileNotFoundError`,
`readoutError`, `validationError` and `conversionError` correspond to the
explicit `raise` statements in `excel_client.py` (`readoutError` and
`conversionError` are the `ValueError`s wrapping the underlying cause via
`raise ... from e`; `validationError` is the `ValueError` whose message
prints `self.dataframe.loc[missing_values]`, i.e. the offending rows with
their index labels).  `keyError` is the pandas `KeyError` that escapes
uncaught from the `.loc[:, FEATURES.keys()]` projection or the
`self.dataframe['Name']` lookup when a column is absent. -/
inductive ExcelError where
  | fileNotFoundError (path : String)
  | readoutError (cause : PandasExn)
  | keyError (missingCols : List String)
  | validationError (offending : List (Nat × List Cell))
  | conversionError
deriving DecidableEq, Repr
/-- True for errors constructed by an explicit `raise` statement of the
repository's own code; false for exceptions propagating uncaught from
library internals (the projection `KeyError`). -/
def ExcelError.isExplicitRepoError : ExcelError → Bool
  | .keyError _ => false
  | _ => true
/-- Log events emitted by the methods, one per logger call site in
`excel_client.py`. -/
inductive LogEvent where
  | errorFileNotFound (path : String)
  | errorReadout (cause : PandasExn)
  | debugNoMissing
  | errorConversion
  | infoReading
  | infoFormatting
deriving DecidableEq, Repr
/-- The mutable state of an `ExcelClient` instance: the constructor
argument `file_path` and the `dataframe` attribute. -/
structure ClientState where
  filePath : String
  dataframe : DataFrame
deriving DecidableEq, Repr
/-- The `__init__` constructor: stores the path and an empty frame. -/
def ExcelClient.init (filePath : String) : ClientState :=
  ⟨filePath, DataFrame.empty⟩
deriving instance DecidableEq for Except
/-- Outcome of one method call: the object state after the call (the
Python methods mutate `self.dataframe` in place), the log events emitted,
and the returned value or the raised exception. -/
structure MethodResult (α : Type) where
  state : ClientState
  log : List LogEvent
  result : Except ExcelError α
deriving DecidableEq, Repr
/-- The `_to_df` method.  Both branches of the `if header:` call
`pd.read_excel` on `self.file_path` and `sheet_name`; the `then` branch
passes `header=0` explicitly and the `else` branch omits the keyword, so
pandas applies its default.  On success the frame is assigned to
`self.dataframe`; a `FileNotFoundError` is logged and re-raised carrying
the offending path; any other exception is logged and re-raised as a
`ValueError` wrapping the cause. -/
def ExcelClient.toDf (fs : FileSystem) (sheetName : String)
    (header : Bool) (st : ClientState) : MethodResult Unit :=
  let call :=
    if header then
      readExcelCall fs st.filePath sheetName (some 0)
    else
      readExcelCall fs st.filePath sheetName pandasDefaultHeader
  match call with
  | .ok df =>
      { state := { st with dataframe := df }, log := [], result := .ok () }
  | .error .fileNotFound =>
      { state := st
        log := [.errorFileNotFound st.filePath]
        result := .error (.fileNotFoundError st.filePath) }
  | .error (.other e) =>
      { state := st
        log := [.errorReadout e]
        result := .error (.readoutError e) }
/-- Value of a decimal digit character, if it is one. -/
def charDigit? (c : Char) : Option Nat :=
  if c.isDigit then some (c.toNat - 48) else none
/-- Accumulate a non-empty run of decimal digits into a number. -/
def digitsToNat : List Char → Nat → Option Nat
  | [], acc => some acc
  | c :: cs, acc =>
      match charDigit? c with
      | none => none
      | some d => digitsToNat cs (acc * 10 + d)
/-- Decimal integer reading of a string, the successful cases of a
pandas `astype` cast from a text cell to a numeric dtype (anything that
is not an optionally signed run of digits raises). -/
def strToInt? (s : String) : Option Int :=
  match s.data with
  | [] => none
  | '-' :: c :: cs => (digitsToNat (c :: cs) 0).map (fun n => -(n : Int))
  | c :: cs => (digitsToNat (c :: cs) 0).map (fun n => (n : Int))
/-- Coercion of one scalar to a declared dtype, the per-value semantics
of `DataFrame.astype`: `none` is failure (the exception pandas raises,
e.g. for a non-numeric string cast to an integer dtype).  Casts not
exercised by the pipeline's contracts (string-to-number parsing is kept
to integer literals, datetime casts mirror the nanosecond view) are
modelled by natural total choices; every successful cast produces a
value of the target dtype. -/
def coerceValue (d : Dtype) (v : Value) : Option Value :=
  match d, v with
  | .text, v => some (.str v.render)
  | .integer, .int n => some (.int n)
  | .integer, .float x => some (.int x)
  | .integer, .str s => (strToInt? s).map Value.int
  | .integer, .bool b => some (.int (if b then 1 else 0))
  | .integer, .date t => some (.int t)
  | .floating, .float x => some (.float x)
  | .floating, .int n => some (.float n)
  | .floating, .str s => (strToInt? s).map Value.float
  | .floating, .bool b => some (.float (if b then 1 else 0))
  | .floating, .date _ => none
  | .datetime, .date t => some (.date t)
  | .datetime, .int n => some (.date n)
  | .datetime, _ => none
  | .boolean, .bool b => some (.bool b)
  | .boolean, .int n => some (.bool (n ≠ 0))
  | .boolean, .float x => some (.bool (x ≠ 0))
  | .boolean, .str s => some (.bool (s ≠ ""))
  | .boolean, .date _ => none
/-- Coercion of one cell.  A NaN cell is kept as NaN; in the pipeline
this branch is unreachable when validation is on, because the missing
-value scan raises before `astype` runs. -/
def coerceCell (d : Dtype) (c : Cell) : Option Cell :=
  match c with
  | none => some (none : Cell)
  | some v => (coerceValue d v).map some
/-- The dtype `astype` applies to the column named `c`: its entry in the
`FEATURES` dict, if any (columns outside the dict are left unchanged). -/
def featureDtype? (features : List (String × Dtype)) (c : String) :
    Option Dtype :=
  features.lookup c
/-- Coerce one row cell-by-cell against the column-name list, failing if
any cell fails. -/
def coerceRow (features : List (String × Dtype)) (cols : List String)
    (r : List Cell) : Option (List Cell) :=
  (cols.zip r).mapM (fun p =>
    match featureDtype? features p.1 with
    | none => some p.2
    | some d => coerceCell d p.2)
/-- `self.dataframe.astype(c.FEATURES)`: every named column is cast to
its declared dtype; the whole cast fails (raises) if any cell fails, and
no partial frame is produced. -/
def astypeDf (features : List (String × Dtype)) (df : DataFrame) :
    Option DataFrame :=
  (df.rows.mapM (fun r =>
      (coerceRow features df.cols r.2).map (fun r2 => (r.1, r2)))).map
    (fun rows => { cols := df.cols, rows := rows })
/-- Rows of the frame with at least one NaN cell, with their index
labels: `self.dataframe.loc[self.dataframe.isna().any(axis=1)]`. -/
def missingRows (df : DataFrame) : List (Nat × List Cell) :=
  df.rows.filter (fun r => r.2.any (fun c => c = none))
/-- The `_validate_data` method: scan `self.dataframe` for rows with a
missing value and raise a `ValueError` listing them; otherwise log the
debug message and attempt `astype(c.FEATURES)`, assigning the coerced
frame on success and raising a wrapping `ValueError` on failure. -/
def ExcelClient.validateData (features : List (String × Dtype))
    (st : ClientState) : MethodResult Unit :=
  if (missingRows st.dataframe).isEmpty then
    match astypeDf features st.dataframe with
    | some df2 =>
        { state := { st with dataframe := df2 }
          log := [.debugNoMissing]
          result := .ok () }
    | none =>
        { state := st
          log := [.debugNoMissing, .errorConversion]
          result := .error .conversionError }
  else
    { state := st, log := []
      result := .error (.validationError (missingRows st.dataframe)) }
/-- Index of the first column named `c`, the label lookup of
`df.loc[:, ...]` and `df['Name']` (column names are assumed unique, as
produced by a well-formed sheet). -/
def colIdx? (cols : List String) (c : String) : Option Nat :=
  cols.indexOf? c
/-- Projection of one row onto the column positions `idxs`. -/
def projectRow (idxs : List Nat) (r : List Cell) : List Cell :=
  idxs.map (fun j => r.getD j none)
/-- `self.dataframe.loc[:, c.FEATURES.keys()]`: the frame restricted to
the schema columns, in schema order.  Callable only when every schema
column resolved (`formatDf` raises the pandas `KeyError` otherwise). -/
def projectDf (names : List String) (idxs : List Nat) (df : DataFrame) :
    DataFrame :=
  { cols := names
    rows := df.rows.map (fun r => (r.1, projectRow idxs r.2)) }
/-- Does this row survive the `Name` filter?  `j` is the position of the
`Name` column: the row is kept when its `Name` cell is not NaN
(`self.dataframe['Name'].notna()`). -/
def keepRow (j : Nat) (r : Nat × List Cell) : Bool :=
  r.2.getD j none ≠ none
/-- `self.dataframe[self.dataframe['Name'].notna()].reset_index(drop=True)`:
drop rows whose `Name` cell is NaN, then relabel the survivors 0, 1, 2,
... in order. -/
def dropEmptyName (j : Nat) (df : DataFrame) : DataFrame :=
  { cols := df.cols
    rows := (df.rows.filter (keepRow j)).enum.map (fun p => (p.1, p.2.2)) }
/-- Resolve each requested column label to its position, failing if any
label is absent (`df.loc[:, keys]` raises `KeyError` in that case). -/
def colIdxList (cols : List String) (names : List String) :
    Option (List Nat) :=
  names.mapM (colIdx? cols)
/-- The `_format_df` method: project onto the schema columns (the pandas
`KeyError`, naming the absent columns, escapes if any is missing),
filter out rows with an empty `Name` (a `KeyError` escapes if `Name` is
not a column), and, when `validate` is set, run `_validate_data` on the
result.  The `'Name'` lookup is performed on the projected frame, whose
columns are by construction exactly `features.map Prod.fst`. -/
def ExcelClient.formatDf (features : List (String × Dtype))
    (validate : Bool) (st : ClientState) : MethodResult Unit :=
  match colIdxList st.dataframe.cols (features.map Prod.fst) with
  | none =>
      { state := st, log := []
        result :=
          .error (.keyError
            ((features.map Prod.fst).filter
              (fun c => ¬ c ∈ st.dataframe.cols))) }
  | some idxs =>
      match colIdx? (features.map Prod.fst) "Name" with
      | none =>
          { state :=
              { st with
                dataframe := projectDf (features.map Prod.fst) idxs
                  st.dataframe }
            log := []
            result := .error (.keyError ["Name"]) }
      | some j =>
          if validate then
            ExcelClient.validateData features
              { st with
                dataframe := dropEmptyName j
                  (projectDf (features.map Prod.fst) idxs st.dataframe) }
          else
            { state :=
                { st with
                  dataframe := dropEmptyName j
                    (projectDf (features.map Prod.fst) idxs st.dataframe) }
              log := [], result := .ok () }
/-- The `load_excel` method: log, read the sheet into `self.dataframe`
via `_to_df`, log, format and validate via `_format_df(validate=True)`,
then return `self.dataframe` when `return_output` is set and `None`
otherwise.  Exceptions from either step propagate to the caller with the
state the failing step left behind. -/
def ExcelClient.loadExcel (features : List (String × Dtype))
    (fs : FileSystem) (sheetName : String) (header : Bool)
    (returnOutput : Bool) (st : ClientState) :
    MethodResult (Option DataFrame) :=
  match ExcelClient.toDf fs sheetName header st with
  | ⟨st1, log1, .error e⟩ =>
      { state := st1
        log := [.infoReading] ++ log1
        result := .error e }
  | ⟨st1, log1, .ok _⟩ =>
      match ExcelClient.formatDf features true st1 with
      | ⟨st2, log2, .error e⟩ =>
          { state := st2
            log := [.infoReading] ++ log1 ++ [.infoFormatting] ++ log2
            result := .error e }
      | ⟨st2, log2, .ok _⟩ =>
          { state := st2
            log := [.infoReading] ++ log1 ++ [.infoFormatting] ++ log2
            result :=
              .ok (if returnOutput then some st2.dataframe else none) }
/-- Modelled from the spec: the `FEATURES` schema constant lives in
`excel_client.constants`, a module of this repository that is not under
`src/`; the spec fixes it as an ordered mapping with key column
`Name : text` plus domain columns, and its scenarios use
`{Name: text, Qty: integer}`.  This concrete instance is used for
witnesses; the theorems quantify over an arbitrary schema. -/
def specFEATURES : List (String × Dtype) :=
  [("Name", .text), ("Qty", .integer)]
/-- Per the spec scenario: sheet with header row `Name, Qty` and data
rows `("A", 5)`, `("", 2)` (empty `Name`, i.e. NaN after the read) and
`("B", "x")`. -/
def scenarioSheet : Sheet :=
  ⟨[[some (.str "Name"), some (.str "Qty")],
    [some (.str "A"), some (.int 5)],
    [none, some (.int 2)],
    [some (.str "B"), some (.str "x")]]⟩
/-- A one-sheet filesystem holding the scenario workbook at `data.xlsx`. -/
def scenarioFs : FileSystem := fun p =>
  if p = "data.xlsx" then .workbook [("Sheet1", scenarioSheet)]
  else .missing
/-- A client about to load the scenario file. -/
def scenarioClient : ClientState := ExcelClient.init "data.xlsx"
/-- The scenario frame after projection and `Name` filtering: the empty
-`Name` row is gone and the survivors are re-indexed 0, 1. -/
def filteredScenarioFrame : DataFrame :=
  ⟨["Name", "Qty"],
   [(0, [some (.str "A"), some (.int 5)]),
    (1, [some (.str "B"), some (.str "x")])]⟩
/-- A client whose stored frame is the filtered scenario frame. -/
def filteredScenarioState : ClientState :=
  ⟨"data.xlsx", filteredScenarioFrame⟩
/-- The spec's second scenario after filtering: row 1 has a missing
`Qty` cell. -/
def missingQtyFrame : DataFrame :=
  ⟨["Name", "Qty"],
   [(0, [some (.str "A"), some (.int 5)]),
    (1, [some (.str "B"), none])]⟩
/-- A client whose stored frame is `missingQtyFrame`. -/
def missingQtyState : ClientState := ⟨"data.xlsx", missingQtyFrame⟩
/-- A sheet whose only column is `Name`: the schema column `Qty` is
absent from the raw table. -/
def noQtyColumnSheet : Sheet :=
  ⟨[[some (.str "Name")], [some (.str "A")]]⟩
/-- A filesystem holding `noQtyColumnSheet` at `data.xlsx`. -/
def noQtyColumnFs : FileSystem := fun p =>
  if p = "data.xlsx" then .workbook [("Sheet1", noQtyColumnSheet)]
  else .missing
/-- A client whose stored frame lacks the `Qty` column. -/
def noQtyColumnState : ClientState :=
  ⟨"data.xlsx", ⟨["Name"], [(0, [some (.str "A")])]⟩⟩
/-- The raw scenario frame as read from `scenarioSheet` with the first
row as header. -/
def rawScenarioFrame : DataFrame :=
  ⟨["Name", "Qty"],
   [(0, [some (.str "A"), some (.int 5)]),
    (1, [none, some (.int 2)]),
    (2, [some (.str "B"), some (.str "x")])]⟩
/-- A raw frame matching the schema with complete, coercible values. -/
def validRawFrame : DataFrame :=
  ⟨["Name", "Qty"],
   [(0, [some (.str "A"), some (.int 5)]),
    (1, [some (.str "B"), some (.int 7)])]⟩
/-- A client whose stored frame is `validRawFrame`. -/
def validRawState : ClientState := ⟨"data.xlsx", validRawFrame⟩
/-- A sheet whose data matches the schema completely. -/
def validSheet : Sheet :=
  ⟨[[some (.str "Name"), some (.str "Qty")],
    [some (.str "A"), some (.int 5)],
    [some (.str "B"), some (.int 7)]]⟩
/-- A filesystem holding `validSheet` at `data.xlsx`. -/
def validFs : FileSystem := fun p =>
  if p = "data.xlsx" then .workbook [("Sheet1", validSheet)] else .missing
/-- A client whose stored frame is the raw scenario frame. -/
def rawScenarioState : ClientState := ⟨"data.xlsx", rawScenarioFrame⟩
/-- Does a cell hold a value of the given runtime dtype?  A missing cell
has none. -/
def cellHasDtype (c : Cell) (d : Dtype) : Bool :=
  match c with
  | some v => v.dtypeOf = d
  | none => false
/-- Follows the spec's words, for comparison with the code (testable
property 1): the table's columns exactly equal the schema's declared
columns, in declared order, and every cell's runtime type matches the
type the schema declares for its column. -/
def specOutputContract (features : List (String × Dtype))
    (df : DataFrame) : Bool :=
  (df.cols = features.map Prod.fst) &&
  df.rows.all (fun r =>
    (r.2.length = features.length) &&
    (List.range features.length).all (fun k =>
      match featureDtype? features (df.cols.getD k "") with
      | some d => cellHasDtype (r.2.getD k none) d
      | none => false))
/-- Pointwise reading of a successful `Option`-valued `mapM`. -/
theorem mapM_option_forall₂ {α β : Type} (f : α → Option β) :
    ∀ {l : List α} {l2 : List β}, l.mapM f = some l2 →
      List.Forall₂ (fun a b => f a = some b) l l2 := by
  intro l
  induction l with
  | nil =>
      intro l2 h
      rw [List.mapM_nil] at h
      cases h
      exact List.Forall₂.nil
  | cons a t ih =>
      intro l2 h
      rw [List.mapM_cons] at h
      cases hfa : f a with
      | none => rw [hfa] at h; exact absurd h (by simp [Option.bind])
      | some b =>
          rw [hfa] at h
          cases hmt : t.mapM f with
          | none => rw [hmt] at h; exact absurd h (by simp [Option.bind])
          | some bs =>
              rw [hmt] at h
              simp only [Option.bind, Option.pure_def, Option.some.injEq] at h
              cases h
              exact List.Forall₂.cons hfa (ih hmt)
/-- A single failing element makes an `Option`-valued `mapM` fail. -/
theorem mapM_option_eq_none {α β : Type} {f : α → Option β} {l : List α}
    {a : α} (ha : a ∈ l) (hfa : f a = none) : l.mapM f = none := by
  induction l with
  | nil => cases ha
  | cons x t ih =>
      rw [List.mapM_cons]
      rcases List.mem_cons.mp ha with h | h
      · subst h; rw [hfa]; rfl
      · cases hfx : f x with
        | none => rfl
        | some b => rw [ih h]; rfl
/-- A label present among the keys of an association list has a lookup. -/
theorem lookup_of_mem_keys {β : Type} {l : List (String × β)} {c : String}
    (h : c ∈ l.map Prod.fst) : ∃ d, l.lookup c = some d := by
  induction l with
  | nil => cases h
  | cons p t ih =>
      rcases List.mem_cons.mp h with h1 | h1
      · exact ⟨p.2, by simp [List.lookup, h1.symm]⟩
      · by_cases hc : c = p.1
        · exact ⟨p.2, by simp [List.lookup, hc]⟩
        · rcases ih h1 with ⟨d, hd⟩
          refine ⟨d, ?_⟩
          simpa [List.lookup, beq_false_of_ne hc] using hd
/-- The column lookup fails exactly on absent labels. -/
theorem colIdx?_eq_none_iff (cols : List String) (c : String) :
    colIdx? cols c = none ↔ ¬ c ∈ cols := by
  simp only [colIdx?, List.indexOf?_eq_none_iff, beq_iff_eq]
  constructor
  · intro h hc; exact h c hc rfl
  · intro h x hx he; exact h (he ▸ hx)
/-- Every successful cell coercion yields a value of the target dtype. -/
theorem coerceValue_dtypeOf {d : Dtype} {v w : Value}
    (h : coerceValue d v = some w) : w.dtypeOf = d := by
  cases d <;> cases v <;>
    simp only [coerceValue, Option.map_eq_some', Option.some.injEq,
      reduceCtorEq] at h <;>
    first
    | (cases h; rfl)
    | (rcases h with ⟨n, _, rfl⟩; rfl)
/-- Case analysis of `_to_df`: both branches of the `if header:` perform
the same `pd.read_excel` call, because the omitted `header` keyword
defaults to 0. -/
theorem toDf_spec (fs : FileSystem) (sheetName : String) (header : Bool)
    (st : ClientState) :
    ExcelClient.toDf fs sheetName header st =
      match readExcelCall fs st.filePath sheetName (some 0) with
      | .ok df => ⟨{ st with dataframe := df }, [], .ok ()⟩
      | .error .fileNotFound =>
          ⟨st, [.errorFileNotFound st.filePath],
            .error (.fileNotFoundError st.filePath)⟩
      | .error (.other e) =>
          ⟨st, [.errorReadout e], .error (.readoutError e)⟩ := by
  cases header <;> rfl
/-- Case analysis of `_validate_data`: the missing-value scan happens
first on `self.dataframe` as it stands; only a clean scan reaches the
`astype` call. -/
theorem validateData_spec (features : List (String × Dtype))
    (st : ClientState) :
    (missingRows st.dataframe = [] ∧
      ∃ df2, astypeDf features st.dataframe = some df2 ∧
        ExcelClient.validateData features st =
          ⟨{ st with dataframe := df2 }, [.debugNoMissing], .ok ()⟩) ∨
    (missingRows st.dataframe = [] ∧
      astypeDf features st.dataframe = none ∧
      ExcelClient.validateData features st =
        ⟨st, [.debugNoMissing, .errorConversion], .error .conversionError⟩) ∨
    (missingRows st.dataframe ≠ [] ∧
      ExcelClient.validateData features st =
        ⟨st, [], .error (.validationError (missingRows st.dataframe))⟩) := by
  by_cases hm : missingRows st.dataframe = []
  · cases hast : astypeDf features st.dataframe with
    | none =>
        refine Or.inr (Or.inl ⟨hm, rfl, ?_⟩)
        unfold ExcelClient.validateData
        rw [hm, hast]
        rfl
    | some df2 =>
        refine Or.inl ⟨hm, df2, rfl, ?_⟩
        unfold ExcelClient.validateData
        rw [hm, hast]
        rfl
  · refine Or.inr (Or.inr ⟨hm, ?_⟩)
    unfold ExcelClient.validateData
    rw [if_neg (by simp [List.isEmpty_iff, hm])]
/-- Case analysis of `_format_df(validate=True)`: either the projection
raises the pandas `KeyError` naming the absent schema columns, or the
`'Name'` lookup raises a `KeyError`, or the call reduces to
`_validate_data` on the projected-and-filtered frame. -/
theorem formatDf_spec (features : List (String × Dtype))
    (st : ClientState) :
    (colIdxList st.dataframe.cols (features.map Prod.fst) = none ∧
      ExcelClient.formatDf features true st =
        ⟨st, [],
          .error (.keyError ((features.map Prod.fst).filter
            (fun c => ¬ c ∈ st.dataframe.cols)))⟩) ∨
    (∃ idxs, colIdxList st.dataframe.cols (features.map Prod.fst)
        = some idxs ∧
      colIdx? (features.map Prod.fst) "Name" = none ∧
      ExcelClient.formatDf features true st =
        ⟨{ st with
            dataframe := projectDf (features.map Prod.fst) idxs
              st.dataframe }, [],
          .error (.keyError ["Name"])⟩) ∨
    (∃ idxs j, colIdxList st.dataframe.cols (features.map Prod.fst)
        = some idxs ∧
      colIdx? (features.map Prod.fst) "Name" = some j ∧
      ExcelClient.formatDf features true st =
        ExcelClient.validateData features
          { st with
            dataframe := dropEmptyName j
              (projectDf (features.map Prod.fst) idxs st.dataframe) }) := by
  cases hidx : colIdxList st.dataframe.cols (features.map Prod.fst) with
  | none =>
      refine Or.inl ⟨rfl, ?_⟩
      unfold ExcelClient.formatDf
      rw [hidx]
  | some idxs =>
      cases hj : colIdx? (features.map Prod.fst) "Name" with
      | none =>
          refine Or.inr (Or.inl ⟨idxs, rfl, rfl, ?_⟩)
          unfold ExcelClient.formatDf
          rw [hidx, hj]
      | some j =>
          refine Or.inr (Or.inr ⟨idxs, j, rfl, rfl, ?_⟩)
          unfold ExcelClient.formatDf
          rw [hidx, hj]
          rfl
/-- C1 (counterexample): the claim says that on the scenario input
(`Qty = "x"` in a kept row) the load fails with the coercion error
before validation is reached.  On the code the load does fail with the
coercion error, but the validation scan has already run and passed: its
debug log message is present, refuting "coercion ... is performed before
the missing-value validation scan" and "fails ... before validation is
reached". -/
theorem C1_counterexample :
    (ExcelClient.loadExcel specFEATURES scenarioFs "Sheet1" true false
        scenarioClient).result = .error .conversionError ∧
    LogEvent.debugNoMissing ∈
      (ExcelClient.loadExcel specFEATURES scenarioFs "Sheet1" true false
        scenarioClient).log := by
  constructor
  · rfl
  · decide
/-- C1 (amended): in `_validate_data` the missing-value scan runs first,
on the table as it stands before coercion: a coercion failure is only
reported after the scan found no missing values and logged its debug
message, and when the scan does find missing rows the method raises the
validation error listing exactly those rows of the uncoerced table,
without attempting coercion. -/
theorem C1_scan_before_coercion (features : List (String × Dtype))
    (st : ClientState) :
    ((ExcelClient.validateData features st).result
        = .error .conversionError →
      missingRows st.dataframe = [] ∧
      (ExcelClient.validateData features st).log
        = [.debugNoMissing, .errorConversion]) ∧
    (missingRows st.dataframe ≠ [] →
      ExcelClient.validateData features st =
        ⟨st, [], .error (.validationError (missingRows st.dataframe))⟩) := by
  rcases validateData_spec features st with
    ⟨hm, df2, hast, heq⟩ | ⟨hm, hast, heq⟩ | ⟨hm, heq⟩
  · refine ⟨fun hres => ?_, fun hne => absurd hm hne⟩
    rw [heq] at hres
    cases hres
  · exact ⟨fun _ => ⟨hm, by rw [heq]⟩, fun hne => absurd hm hne⟩
  · refine ⟨fun hres => ?_, fun _ => heq⟩
    rw [heq] at hres
    cases hres
/-- C1 (witness): on the filtered scenario frame the conversion error is
reported with the scan's debug message already logged; on the frame with
a missing `Qty` the validation error lists the offending row and no
coercion happens. -/
theorem C1_scan_before_coercion_witness :
    (missingRows filteredScenarioState.dataframe = [] ∧
      (ExcelClient.validateData specFEATURES filteredScenarioState).log
        = [.debugNoMissing, .errorConversion]) ∧
    ExcelClient.validateData specFEATURES missingQtyState =
      ⟨missingQtyState, [],
        .error (.validationError (missingRows missingQtyState.dataframe))⟩ :=
  ⟨(C1_scan_before_coercion specFEATURES filteredScenarioState).1 rfl,
   (C1_scan_before_coercion specFEATURES missingQtyState).2 (by decide)⟩
/-- C2: the claim (and the method's own docstring) says that with the
header flag false no row is consumed as a header and columns get
positional names.  In the code the `else` branch merely omits the
`header` keyword of `pd.read_excel`, whose default is again `header=0`,
so both flag values perform the identical call: the flag has no effect
and the first row is consumed as column names either way, as the
concrete evaluation on the scenario sheet shows. -/
theorem C2_header_flag_has_no_effect :
    (∀ (fs : FileSystem) (sheetName : String) (st : ClientState),
      ExcelClient.toDf fs sheetName false st =
        ExcelClient.toDf fs sheetName true st) ∧
    (ExcelClient.toDf scenarioFs "Sheet1" false scenarioClient).state.dataframe
      = { cols := ["Name", "Qty"]
          rows := [(0, [some (.str "A"), some (.int 5)]),
                   (1, [none, some (.int 2)]),
                   (2, [some (.str "B"), some (.str "x")])] } :=
  ⟨fun _ _ _ => rfl, by decide⟩
/-- C3: loading from a path that does not resolve to an existing file
always raises the distinguished file-not-found error carrying the
offending path (after logging it), never any other error kind, and
leaves the state untouched. -/
theorem C3_not_found (features : List (String × Dtype)) (fs : FileSystem)
    (sheetName : String) (header returnOutput : Bool) (st : ClientState)
    (h : fs st.filePath = .missing) :
    ExcelClient.loadExcel features fs sheetName header returnOutput st =
      ⟨st, [.infoReading, .errorFileNotFound st.filePath],
        .error (.fileNotFoundError st.filePath)⟩ := by
  have h1 : ExcelClient.toDf fs sheetName header st =
      ⟨st, [.errorFileNotFound st.filePath],
        .error (.fileNotFoundError st.filePath)⟩ := by
    rw [toDf_spec]
    unfold readExcelCall
    rw [h]
  unfold ExcelClient.loadExcel
  rw [h1]
  rfl
/-- C3 (witness): loading `data.xlsx` from an empty filesystem raises
the file-not-found error carrying the path. -/
theorem C3_not_found_witness :
    ExcelClient.loadExcel specFEATURES (fun _ => .missing) "Sheet1" true
        false scenarioClient =
      ⟨scenarioClient, [.infoReading, .errorFileNotFound "data.xlsx"],
        .error (.fileNotFoundError "data.xlsx")⟩ :=
  C3_not_found specFEATURES (fun _ => .missing) "Sheet1" true false
    scenarioClient rfl
/-- C4: loading a sheet name absent from an existing workbook raises the
wrapping read-error carrying the worksheet-not-found cause, and any
other failure during file access or parsing (a corrupt file) raises the
same error kind carrying its own cause. -/
theorem C4_parse_error_wraps_cause :
    (∀ (features : List (String × Dtype)) (fs : FileSystem)
        (sheetName : String) (header returnOutput : Bool)
        (st : ClientState) (sheets : List (String × Sheet)),
        fs st.filePath = .workbook sheets →
        sheets.lookup sheetName = none →
        ExcelClient.loadExcel features fs sheetName header returnOutput st =
          ⟨st, [.infoReading, .errorReadout (.worksheetNotFound sheetName)],
            .error (.readoutError (.worksheetNotFound sheetName))⟩) ∧
    (∀ (features : List (String × Dtype)) (fs : FileSystem)
        (sheetName : String) (header returnOutput : Bool)
        (st : ClientState),
        fs st.filePath = .corrupt →
        ExcelClient.loadExcel features fs sheetName header returnOutput st =
          ⟨st, [.infoReading, .errorReadout (.corruptFile st.filePath)],
            .error (.readoutError (.corruptFile st.filePath))⟩) := by
  constructor
  · intro features fs sheetName header returnOutput st sheets hfs hlk
    have h1 : ExcelClient.toDf fs sheetName header st =
        ⟨st, [.errorReadout (.worksheetNotFound sheetName)],
          .error (.readoutError (.worksheetNotFound sheetName))⟩ := by
      rw [toDf_spec]
      unfold readExcelCall
      simp only [hfs, hlk]
    unfold ExcelClient.loadExcel
    rw [h1]
    rfl
  · intro features fs sheetName header returnOutput st hfs
    have h1 : ExcelClient.toDf fs sheetName header st =
        ⟨st, [.errorReadout (.corruptFile st.filePath)],
          .error (.readoutError (.corruptFile st.filePath))⟩ := by
      rw [toDf_spec]
      unfold readExcelCall
      simp only [hfs]
    unfold ExcelClient.loadExcel
    rw [h1]
    rfl
/-- C4 (witness): a workbook with no sheets yields the wrapped
worksheet-not-found error; an unreadable file yields the wrapped
corrupt-file error. -/
theorem C4_parse_error_wraps_cause_witness :
    ExcelClient.loadExcel specFEATURES
        (fun p => if p = "data.xlsx" then .workbook [] else .missing)
        "Sheet1" true false scenarioClient =
      ⟨scenarioClient,
        [.infoReading, .errorReadout (.worksheetNotFound "Sheet1")],
        .error (.readoutError (.worksheetNotFound "Sheet1"))⟩ ∧
    ExcelClient.loadExcel specFEATURES (fun _ => .corrupt) "Sheet1" true
        false scenarioClient =
      ⟨scenarioClient,
        [.infoReading, .errorReadout (.corruptFile "data.xlsx")],
        .error (.readoutError (.corruptFile "data.xlsx"))⟩ :=
  ⟨C4_parse_error_wraps_cause.1 specFEATURES
      (fun p => if p = "data.xlsx" then .workbook [] else .missing)
      "Sheet1" true false scenarioClient [] (by decide) rfl,
   C4_parse_error_wraps_cause.2 specFEATURES (fun _ => .corrupt) "Sheet1"
      true false scenarioClient rfl⟩
/-- C5 (counterexample): with schema column `Qty` absent from the raw
table, the load fails - but with the generic pandas `KeyError` escaping
from the label projection, an error no `raise` statement of the
repository constructs; there is no distinct `SchemaError`, refuting
"fails with an explicit SchemaError ..., not with an ambiguous generic
error". -/
theorem C5_counterexample :
    (ExcelClient.loadExcel specFEATURES noQtyColumnFs "Sheet1" true false
        scenarioClient).result = .error (.keyError ["Qty"]) ∧
    ExcelError.isExplicitRepoError (.keyError ["Qty"]) = false :=
  ⟨by decide, rfl⟩
/-- C5 (amended): when at least one declared schema column is absent
from the raw table, the load never passes silently: `_format_df` fails
with the pandas `KeyError` naming exactly the absent schema columns (a
nonempty list), leaving the state untouched. -/
theorem C5_missing_column_never_silent (features : List (String × Dtype))
    (st : ClientState)
    (h : ∃ c, c ∈ features.map Prod.fst ∧ ¬ c ∈ st.dataframe.cols) :
    ExcelClient.formatDf features true st =
      ⟨st, [],
        .error (.keyError ((features.map Prod.fst).filter
          (fun c => ¬ c ∈ st.dataframe.cols)))⟩ ∧
    (features.map Prod.fst).filter (fun c => ¬ c ∈ st.dataframe.cols)
      ≠ [] := by
  obtain ⟨c, hc, hnc⟩ := h
  have hidx : colIdxList st.dataframe.cols (features.map Prod.fst)
      = none :=
    mapM_option_eq_none hc ((colIdx?_eq_none_iff _ _).mpr hnc)
  rcases formatDf_spec features st with
    ⟨_, heq⟩ | ⟨idxs, hidx2, _, _⟩ | ⟨idxs, j, hidx2, _, _⟩
  · refine ⟨heq, List.ne_nil_of_mem (List.mem_filter.mpr ⟨hc, ?_⟩)⟩
    simpa using hnc
  · rw [hidx] at hidx2; cases hidx2
  · rw [hidx] at hidx2; cases hidx2
/-- C5 (witness): on a frame lacking the `Qty` column the projection
fails with the `KeyError` naming `Qty`. -/
theorem C5_missing_column_never_silent_witness :
    ExcelClient.formatDf specFEATURES true noQtyColumnState =
      ⟨noQtyColumnState, [],
        .error (.keyError ((specFEATURES.map Prod.fst).filter
          (fun c => ¬ c ∈ noQtyColumnState.dataframe.cols)))⟩ ∧
    (specFEATURES.map Prod.fst).filter
      (fun c => ¬ c ∈ noQtyColumnState.dataframe.cols) ≠ [] :=
  C5_missing_column_never_silent specFEATURES noQtyColumnState
    ⟨"Qty", by decide, by decide⟩
/-- Re-indexing a filtered row list: the data in order. -/
theorem enum_reindex_snd {α : Type} (l : List (Nat × α)) :
    (l.enum.map (fun p => (p.1, p.2.2))).map Prod.snd = l.map Prod.snd := by
  rw [List.map_map]
  have h1 : (Prod.snd ∘ fun p : Nat × (Nat × α) => (p.1, p.2.2))
      = fun p : Nat × (Nat × α) => p.2.2 := rfl
  have h2 : (fun p : Nat × (Nat × α) => p.2.2)
      = (Prod.snd ∘ Prod.snd) := rfl
  rw [h1, h2, ← List.map_map, List.enum_map_snd]
/-- Re-indexing a filtered row list: the new labels are 0, 1, 2, .... -/
theorem enum_reindex_fst {α : Type} (l : List (Nat × α)) :
    (l.enum.map (fun p => (p.1, p.2.2))).map Prod.fst
      = List.range l.length := by
  rw [List.map_map]
  have h1 : (Prod.fst ∘ fun p : Nat × (Nat × α) => (p.1, p.2.2))
      = Prod.fst := rfl
  rw [h1, List.enum_map_fst]
/-- C6: the `Name` filter of `_format_df` removes exactly the rows whose
`Name` cell holds the missing marker (an absent/empty cell of the
sheet), keeps the surviving rows' data in their original relative order,
and re-labels them contiguously 0, 1, 2, .... -/
theorem C6_filter_name_rows (df : DataFrame) (j : Nat)
    (h : colIdx? df.cols "Name" = some j) :
    (dropEmptyName j df).rows.map Prod.snd
      = (df.rows.filter (keepRow j)).map Prod.snd ∧
    (dropEmptyName j df).rows.map Prod.fst
      = List.range (df.rows.filter (keepRow j)).length ∧
    ∀ r : Nat × List Cell,
      r ∈ df.rows.filter (keepRow j) ↔
        r ∈ df.rows ∧ r.2.getD j none ≠ none := by
  refine ⟨enum_reindex_snd _, enum_reindex_fst _, fun r => ?_⟩
  rw [List.mem_filter]
  simp [keepRow]
/-- C6 (witness): on the raw scenario frame the row with the empty
`Name` is removed and the survivors are re-labelled 0, 1. -/
theorem C6_filter_name_rows_witness :
    (dropEmptyName 0 rawScenarioFrame).rows.map Prod.snd
      = (rawScenarioFrame.rows.filter (keepRow 0)).map Prod.snd ∧
    (dropEmptyName 0 rawScenarioFrame).rows.map Prod.fst
      = List.range (rawScenarioFrame.rows.filter (keepRow 0)).length ∧
    ∀ r : Nat × List Cell,
      r ∈ rawScenarioFrame.rows.filter (keepRow 0) ↔
        r ∈ rawScenarioFrame.rows ∧ r.2.getD 0 none ≠ none :=
  C6_filter_name_rows rawScenarioFrame 0 (by decide)
/-- C7: once projection and the `Name` filter have succeeded (`fdf` is
the filtered frame), a remaining missing value in any cell makes
`_format_df` raise the validation error whose payload is exactly the
offending rows of the filtered frame, row labels included; with zero
missing values no validation error is raised and the scan logs its
passed message. -/
theorem C7_validation_identifies_rows (features : List (String × Dtype))
    (st : ClientState) (idxs : List Nat) (j : Nat) (fdf : DataFrame)
    (h1 : colIdxList st.dataframe.cols (features.map Prod.fst) = some idxs)
    (h2 : colIdx? (features.map Prod.fst) "Name" = some j)
    (hf : fdf = dropEmptyName j
      (projectDf (features.map Prod.fst) idxs st.dataframe)) :
    (missingRows fdf ≠ [] →
      (ExcelClient.formatDf features true st).result =
        .error (.validationError (missingRows fdf)) ∧
      ∀ r : Nat × List Cell,
        r ∈ missingRows fdf ↔
          r ∈ fdf.rows ∧ r.2.any (fun c => c = none) = true) ∧
    (missingRows fdf = [] →
      (∀ m, (ExcelClient.formatDf features true st).result ≠
        .error (.validationError m)) ∧
      LogEvent.debugNoMissing ∈ (ExcelClient.formatDf features true st).log) := by
  subst hf
  rcases formatDf_spec features st with
    ⟨hn, _⟩ | ⟨i2, hi2, hn2, _⟩ | ⟨i2, j2, hi2, hj2, heq⟩
  · rw [h1] at hn; cases hn
  · rw [h1] at hi2
    rw [h2] at hn2
    cases hn2
  · rw [h1] at hi2
    injection hi2 with hi2e
    subst hi2e
    rw [h2] at hj2
    injection hj2 with hj2e
    subst hj2e
    constructor
    · intro hne
      rcases validateData_spec features
          ⟨st.filePath, dropEmptyName j
            (projectDf (features.map Prod.fst) idxs st.dataframe)⟩ with
        ⟨hm, _, _, _⟩ | ⟨hm, _, _⟩ | ⟨hm, hveq⟩
      · exact absurd hm hne
      · exact absurd hm hne
      · refine ⟨?_, fun r => ?_⟩
        · rw [heq, hveq]
        · simp [missingRows, List.mem_filter]
    · intro hz
      rcases validateData_spec features
          ⟨st.filePath, dropEmptyName j
            (projectDf (features.map Prod.fst) idxs st.dataframe)⟩ with
        ⟨hm, df2, hast, hveq⟩ | ⟨hm, hast, hveq⟩ | ⟨hm, hveq⟩
      · refine ⟨fun m => ?_, ?_⟩
        · rw [heq, hveq]; simp
        · rw [heq, hveq]; simp
      · refine ⟨fun m => ?_, ?_⟩
        · rw [heq, hveq]; simp
        · rw [heq, hveq]; simp
      · exact absurd hz hm
/-- C7 (witness): on the frame with a missing `Qty` in row 1 the
validation error lists exactly that row; on the complete frame no
validation error is raised and the passed-scan message is logged. -/
theorem C7_validation_identifies_rows_witness :
    ((ExcelClient.formatDf specFEATURES true missingQtyState).result =
        .error (.validationError (missingRows missingQtyFrame)) ∧
      ∀ r : Nat × List Cell,
        r ∈ missingRows missingQtyFrame ↔
          r ∈ missingQtyFrame.rows ∧
            r.2.any (fun c => c = none) = true) ∧
    ((∀ m, (ExcelClient.formatDf specFEATURES true validRawState).result ≠
        .error (.validationError m)) ∧
      LogEvent.debugNoMissing ∈
        (ExcelClient.formatDf specFEATURES true validRawState).log) :=
  ⟨(C7_validation_identifies_rows specFEATURES missingQtyState [0, 1] 0
      missingQtyFrame (by decide) (by decide) (by decide)).1 (by decide),
   (C7_validation_identifies_rows specFEATURES validRawState [0, 1] 0
      validRawFrame (by decide) (by decide) (by decide)).2 (by decide)⟩
/-- C9: whenever `load_excel` returns normally, the validated table is
retained as `self.dataframe`, and the returned value is that table
exactly when `return_output` is set and `None` otherwise. -/
theorem C9_return_flag (features : List (String × Dtype))
    (fs : FileSystem) (sheetName : String)
    (header returnOutput : Bool) (st : ClientState)
    (rv : Option DataFrame)
    (h : (ExcelClient.loadExcel features fs sheetName header returnOutput
      st).result = .ok rv) :
    rv = if returnOutput then
        some (ExcelClient.loadExcel features fs sheetName header
          returnOutput st).state.dataframe
      else none := by
  rcases h1 : ExcelClient.toDf fs sheetName header st with ⟨st1, log1, r1⟩
  cases r1 with
  | error e =>
      unfold ExcelClient.loadExcel at h
      rw [h1] at h
      simp at h
  | ok u =>
      cases u
      unfold ExcelClient.loadExcel at h ⊢
      rw [h1] at h ⊢
      dsimp only at h ⊢
      rcases h2 : ExcelClient.formatDf features true st1 with ⟨st2, log2, r2⟩
      cases r2 with
      | error e =>
          rw [h2] at h
          simp at h
      | ok u2 =>
          cases u2
          rw [h2] at h
          dsimp only at h ⊢
          simp only [Except.ok.injEq] at h
          cases returnOutput <;> simpa using h.symm
/-- C9 (witness): a successful load returns the validated table when
`return_output` is true and `None` when it is false. -/
theorem C9_return_flag_witness :
    (some validRawFrame : Option DataFrame) =
      (if true then
        some (ExcelClient.loadExcel specFEATURES validFs "Sheet1" true
          true scenarioClient).state.dataframe
      else none) ∧
    (none : Option DataFrame) =
      (if false then
        some (ExcelClient.loadExcel specFEATURES validFs "Sheet1" true
          false scenarioClient).state.dataframe
      else none) :=
  ⟨C9_return_flag specFEATURES validFs "Sheet1" true true scenarioClient
      (some validRawFrame) (by decide),
   C9_return_flag specFEATURES validFs "Sheet1" true false scenarioClient
      none (by decide)⟩
/-- C10: when `_format_df(validate=True)` fails during validation or
coercion, `self.dataframe` is left holding the projected-and-filtered
but uncoerced table of the last completed step; when it fails during
projection (with the schema containing `Name`), the raw read table is
retained; and a load that reads successfully computes the same outcome
from scratch whatever frame the instance previously stored. -/
theorem C10_failure_keeps_intermediate_state :
    (∀ (features : List (String × Dtype)) (st : ClientState)
        (m : List (Nat × List Cell)),
      (ExcelClient.formatDf features true st).result =
        .error (.validationError m) →
      ∃ idxs j,
        colIdxList st.dataframe.cols (features.map Prod.fst) = some idxs ∧
        colIdx? (features.map Prod.fst) "Name" = some j ∧
        (ExcelClient.formatDf features true st).state =
          ⟨st.filePath, dropEmptyName j
            (projectDf (features.map Prod.fst) idxs st.dataframe)⟩) ∧
    (∀ (features : List (String × Dtype)) (st : ClientState),
      (ExcelClient.formatDf features true st).result =
        .error .conversionError →
      ∃ idxs j,
        colIdxList st.dataframe.cols (features.map Prod.fst) = some idxs ∧
        colIdx? (features.map Prod.fst) "Name" = some j ∧
        (ExcelClient.formatDf features true st).state =
          ⟨st.filePath, dropEmptyName j
            (projectDf (features.map Prod.fst) idxs st.dataframe)⟩) ∧
    (∀ (features : List (String × Dtype)) (st : ClientState)
        (m : List String),
      "Name" ∈ features.map Prod.fst →
      (ExcelClient.formatDf features true st).result =
        .error (.keyError m) →
      (ExcelClient.formatDf features true st).state = st) ∧
    (∀ (features : List (String × Dtype)) (fs : FileSystem)
        (sheetName : String) (header returnOutput : Bool) (p : String)
        (df1 df2 raw : DataFrame),
      readExcelCall fs p sheetName (some 0) = .ok raw →
      ExcelClient.loadExcel features fs sheetName header returnOutput
          ⟨p, df1⟩ =
        ExcelClient.loadExcel features fs sheetName header returnOutput
          ⟨p, df2⟩) := by
  refine ⟨?_, ?_, ?_, ?_⟩
  · intro features st m h
    rcases formatDf_spec features st with
      ⟨hn, heq⟩ | ⟨i2, hi2, hn2, heq⟩ | ⟨i2, j2, hi2, hj2, heq⟩
    · rw [heq] at h; simp at h
    · rw [heq] at h; simp at h
    · rw [heq] at h
      rcases validateData_spec features
          ⟨st.filePath, dropEmptyName j2
            (projectDf (features.map Prod.fst) i2 st.dataframe)⟩ with
        ⟨hm, df2, hast, hveq⟩ | ⟨hm, hast, hveq⟩ | ⟨hm, hveq⟩
      · rw [hveq] at h; simp at h
      · rw [hveq] at h; simp at h
      · exact ⟨i2, j2, hi2, hj2, by rw [heq, hveq]⟩
  · intro features st h
    rcases formatDf_spec features st with
      ⟨hn, heq⟩ | ⟨i2, hi2, hn2, heq⟩ | ⟨i2, j2, hi2, hj2, heq⟩
    · rw [heq] at h; simp at h
    · rw [heq] at h; simp at h
    · rw [heq] at h
      rcases validateData_spec features
          ⟨st.filePath, dropEmptyName j2
            (projectDf (features.map Prod.fst) i2 st.dataframe)⟩ with
        ⟨hm, df2, hast, hveq⟩ | ⟨hm, hast, hveq⟩ | ⟨hm, hveq⟩
      · rw [hveq] at h; simp at h
      · exact ⟨i2, j2, hi2, hj2, by rw [heq, hveq]⟩
      · rw [hveq] at h; simp at h
  · intro features st m hname h
    rcases formatDf_spec features st with
      ⟨hn, heq⟩ | ⟨i2, hi2, hn2, heq⟩ | ⟨i2, j2, hi2, hj2, heq⟩
    · rw [heq]
    · exact absurd ((colIdx?_eq_none_iff _ _).mp hn2) (by simpa using hname)
    · rw [heq] at h
      rcases validateData_spec features
          ⟨st.filePath, dropEmptyName j2
            (projectDf (features.map Prod.fst) i2 st.dataframe)⟩ with
        ⟨hm, df2, hast, hveq⟩ | ⟨hm, hast, hveq⟩ | ⟨hm, hveq⟩
      · rw [hveq] at h; simp at h
      · rw [hveq] at h; simp at h
      · rw [hveq] at h; simp at h
  · intro features fs sheetName header returnOutput p df1 df2 raw hread
    have e1 : ExcelClient.toDf fs sheetName header ⟨p, df1⟩ =
        ⟨⟨p, raw⟩, [], .ok ()⟩ := by
      rw [toDf_spec]
      simp only [hread]
    have e2 : ExcelClient.toDf fs sheetName header ⟨p, df2⟩ =
        ⟨⟨p, raw⟩, [], .ok ()⟩ := by
      rw [toDf_spec]
      simp only [hread]
    unfold ExcelClient.loadExcel
    rw [e1, e2]
/-- C10 (witness): a frame with a missing `Qty` keeps the filtered
uncoerced table after the validation failure; the scenario frame keeps
it after the coercion failure; a frame without the `Qty` column is kept
untouched after the projection failure; and a fresh load is independent
of the previously stored frame. -/
theorem C10_failure_keeps_intermediate_state_witness :
    (∃ idxs j,
      colIdxList missingQtyState.dataframe.cols (specFEATURES.map Prod.fst)
        = some idxs ∧
      colIdx? (specFEATURES.map Prod.fst) "Name" = some j ∧
      (ExcelClient.formatDf specFEATURES true missingQtyState).state =
        ⟨missingQtyState.filePath, dropEmptyName j
          (projectDf (specFEATURES.map Prod.fst) idxs
            missingQtyState.dataframe)⟩) ∧
    (∃ idxs j,
      colIdxList rawScenarioState.dataframe.cols (specFEATURES.map Prod.fst)
        = some idxs ∧
      colIdx? (specFEATURES.map Prod.fst) "Name" = some j ∧
      (ExcelClient.formatDf specFEATURES true rawScenarioState).state =
        ⟨rawScenarioState.filePath, dropEmptyName j
          (projectDf (specFEATURES.map Prod.fst) idxs
            rawScenarioState.dataframe)⟩) ∧
    (ExcelClient.formatDf specFEATURES true noQtyColumnState).state =
      noQtyColumnState ∧
    ExcelClient.loadExcel specFEATURES validFs "Sheet1" true false
        ⟨"data.xlsx", DataFrame.empty⟩ =
      ExcelClient.loadExcel specFEATURES validFs "Sheet1" true false
        ⟨"data.xlsx", filteredScenarioFrame⟩ :=
  ⟨C10_failure_keeps_intermediate_state.1 specFEATURES missingQtyState
      [(1, [some (.str "B"), none])] (by decide),
   C10_failure_keeps_intermediate_state.2.1 specFEATURES rawScenarioState
      (by decide),
   C10_failure_keeps_intermediate_state.2.2.1 specFEATURES
      noQtyColumnState ["Qty"] (by decide) (by decide),
   C10_failure_keeps_intermediate_state.2.2.2 specFEATURES validFs
      "Sheet1" true false "data.xlsx" DataFrame.empty
      filteredScenarioFrame validRawFrame (by decide)⟩
/-- Every row of a projected frame has one cell per requested column. -/
theorem projectDf_row_length (names : List String) (idxs : List Nat)
    (df : DataFrame) :
    ∀ r ∈ (projectDf names idxs df).rows, (r.2 : List Cell).length = idxs.length := by
  intro r hr
  unfold projectDf at hr
  simp only [List.mem_map] at hr
  obtain ⟨r0, _, hr0⟩ := hr
  cases hr0
  simp [projectRow]
/-- Every row of the `Name`-filtered frame carries the data of some row
of the input frame. -/
theorem dropEmptyName_row_from (j : Nat) (df : DataFrame) :
    ∀ r ∈ (dropEmptyName j df).rows,
      ∃ r0 ∈ df.rows, (r.2 : List Cell) = r0.2 := by
  intro r hr
  unfold dropEmptyName at hr
  simp only [List.mem_map] at hr
  obtain ⟨p, hp, hpe⟩ := hr
  have hsnd : p.2 ∈ df.rows.filter (keepRow j) := by
    have hmm := List.mem_map_of_mem Prod.snd hp
    rwa [List.enum_map_snd] at hmm
  exact ⟨p.2, List.mem_of_mem_filter hsnd, by rw [← hpe]⟩
/-- The frame produced by a successful `astype(c.FEATURES)` on a frame
whose columns are exactly the schema keys, whose rows are full-width,
and which has no missing cell, satisfies the spec's output contract. -/
theorem astypeDf_output_contract (features : List (String × Dtype))
    (df df2 : DataFrame)
    (hcols : df.cols = features.map Prod.fst)
    (hlen : ∀ r ∈ df.rows, (r.2 : List Cell).length = features.length)
    (hmiss : missingRows df = [])
    (hast : astypeDf features df = some df2) :
    specOutputContract features df2 = true := by
  unfold astypeDf at hast
  rw [Option.map_eq_some'] at hast
  obtain ⟨rows2, hrows2, hdf2⟩ := hast
  subst hdf2
  have hF := mapM_option_forall₂ _ hrows2
  obtain ⟨hlen2, hget⟩ := List.forall₂_iff_get.mp hF
  have hnomiss : ∀ r ∈ df.rows, ∀ c ∈ (r.2 : List Cell), c ≠ none := by
    intro r hr c hc hcn
    subst hcn
    have hp := (List.filter_eq_nil_iff.mp hmiss) r hr
    exact hp (by rw [List.any_eq_true]; exact ⟨none, hc, by simp⟩)
  have hclen : df.cols.length = features.length := by
    rw [hcols, List.length_map]
  simp only [specOutputContract, Bool.and_eq_true, List.all_eq_true,
    decide_eq_true_eq]
  refine ⟨hcols, ?_⟩
  intro r hr
  obtain ⟨⟨i, hi⟩, hri⟩ := List.mem_iff_get.mp hr
  have hi1 : i < df.rows.length := by rw [hlen2]; exact hi
  have hr0mem : df.rows.get ⟨i, hi1⟩ ∈ df.rows := List.get_mem _ _ _
  have hg := hget i hi1 hi
  rw [hri] at hg
  rw [Option.map_eq_some'] at hg
  obtain ⟨cr, hcr, hrceq⟩ := hg
  have hr0len : (df.rows.get ⟨i, hi1⟩).2.length = features.length :=
    hlen _ hr0mem
  have hFr := mapM_option_forall₂ _ hcr
  obtain ⟨hlen3, hget3⟩ := List.forall₂_iff_get.mp hFr
  have hziplen : (df.cols.zip (df.rows.get ⟨i, hi1⟩).2).length
      = features.length := by
    rw [List.length_zip, hclen, hr0len]
    simp
  have hcrlen : cr.length = features.length := by
    rw [← hlen3, hziplen]
  have hr2 : r.2 = cr := by rw [← hrceq]
  refine ⟨by rw [hr2, hcrlen], ?_⟩
  intro k hkr
  rw [List.mem_range] at hkr
  have hk1 : k < df.cols.length := by rw [hclen]; exact hkr
  have hk2 : k < (df.rows.get ⟨i, hi1⟩).2.length := by
    rw [hr0len]; exact hkr
  have hz : k < (df.cols.zip (df.rows.get ⟨i, hi1⟩).2).length := by
    rw [hziplen]; exact hkr
  have hkcr : k < cr.length := by rw [hcrlen]; exact hkr
  have hmem : df.cols.get ⟨k, hk1⟩ ∈ features.map Prod.fst := by
    rw [← hcols]; exact List.get_mem _ _ _
  obtain ⟨d, hd⟩ := lookup_of_mem_keys hmem
  have hd2 : featureDtype? features (df.cols.get ⟨k, hk1⟩) = some d := hd
  have hcolk : df.cols.getD k "" = df.cols.get ⟨k, hk1⟩ :=
    List.getD_eq_get _ _ hk1
  rw [hcolk, hd2]
  have hpt := hget3 k hz hkcr
  have hzip_get : (df.cols.zip (df.rows.get ⟨i, hi1⟩).2).get ⟨k, hz⟩
      = (df.cols.get ⟨k, hk1⟩, (df.rows.get ⟨i, hi1⟩).2.get ⟨k, hk2⟩) := by
    simp [List.get_eq_getElem, List.getElem_zip]
  rw [hzip_get] at hpt
  dsimp only at hpt
  rw [hd2] at hpt
  have hcell := hnomiss _ hr0mem ((df.rows.get ⟨i, hi1⟩).2.get ⟨k, hk2⟩)
    (List.get_mem _ _ _)
  cases hv : (df.rows.get ⟨i, hi1⟩).2.get ⟨k, hk2⟩ with
  | none => exact absurd hv hcell
  | some v =>
      rw [hv] at hpt
      unfold coerceCell at hpt
      rw [Option.map_eq_some'] at hpt
      obtain ⟨v2, hv2, hv2eq⟩ := hpt
      have hcrk : cr.getD k none = cr.get ⟨k, hkcr⟩ :=
        List.getD_eq_get _ _ hkcr
      rw [hr2, hcrk, ← hv2eq]
      simp [cellHasDtype, coerceValue_dtypeOf hv2]
/-- C8: whenever `load_excel` returns a table (output requested), that
table satisfies the spec's output contract: its columns are exactly the
schema's declared columns in declared order and every cell holds a value
whose runtime dtype is the one the schema declares for its column. -/
theorem C8_success_output_contract (features : List (String × Dtype))
    (fs : FileSystem) (sheetName : String) (header : Bool)
    (st : ClientState) (df : DataFrame)
    (h : (ExcelClient.loadExcel features fs sheetName header true
      st).result = .ok (some df)) :
    specOutputContract features df = true := by
  rcases h1 : ExcelClient.toDf fs sheetName header st with ⟨st1, log1, r1⟩
  cases r1 with
  | error e =>
      unfold ExcelClient.loadExcel at h
      rw [h1] at h
      simp at h
  | ok u =>
      cases u
      unfold ExcelClient.loadExcel at h
      rw [h1] at h
      dsimp only at h
      rcases h2 : ExcelClient.formatDf features true st1 with ⟨st2, log2, r2⟩
      cases r2 with
      | error e =>
          rw [h2] at h
          simp at h
      | ok u2 =>
          cases u2
          rw [h2] at h
          dsimp only at h
          simp only [if_true, Except.ok.injEq, Option.some.injEq,
            eq_self_iff_true, if_pos] at h
          subst h
          rcases formatDf_spec features st1 with
            ⟨hn, heq⟩ | ⟨i2, hi2, hn2, heq⟩ | ⟨i2, j2, hi2, hj2, heq⟩
          · rw [heq] at h2; simp at h2
          · rw [heq] at h2; simp at h2
          · rw [heq] at h2
            rcases validateData_spec features
                ⟨st1.filePath, dropEmptyName j2
                  (projectDf (features.map Prod.fst) i2 st1.dataframe)⟩ with
              ⟨hm, dfc, hast, hveq⟩ | ⟨hm, hast, hveq⟩ | ⟨hm, hveq⟩
            · rw [hveq] at h2
              simp only [MethodResult.mk.injEq] at h2
              obtain ⟨hs, _, _⟩ := h2
              have hst2 : st2.dataframe = dfc := by rw [← hs]
              rw [hst2]
              have hidxlen : i2.length = features.length := by
                have hl := (mapM_option_forall₂ _ hi2).length_eq
                rw [List.length_map] at hl
                exact hl.symm
              refine astypeDf_output_contract features
                (dropEmptyName j2
                  (projectDf (features.map Prod.fst) i2 st1.dataframe))
                dfc rfl ?_ hm hast
              intro r hr
              obtain ⟨r0, hr0, he⟩ := dropEmptyName_row_from _ _ r hr
              rw [he, projectDf_row_length _ _ _ r0 hr0, hidxlen]
            · rw [hveq] at h2; simp at h2
            · rw [hveq] at h2; simp at h2
/-- C8 (witness): the table returned by a successful load of the valid
sheet satisfies the output contract. -/
theorem C8_success_output_contract_witness :
    specOutputContract specFEATURES validRawFrame = true :=
  C8_success_output_contract specFEATURES validFs "Sheet1" true
    scenarioClient validRawFrame (by decide)
